import Mathlib

/-!
Verification of the web service layer (`src/ntex/src/web/service.rs`):
the request/response wrapper types with their reference-counting exclusivity
invariant, the single-shot service-registration wrapper, the route builder,
and the registration / dispatch contract.

Rust's `Rc` handles are embedded with explicit `strong`/`weak` count fields;
`Rc::get_mut(..).unwrap()` panics are embedded as `Option.none` results.
Collaborator code that lives outside this file (the `insert_slash` helper,
the HTTP `Response` internals, the error-to-response conversion, the routing
configuration and the dispatch loop of the routing table) is modelled from
the specification, as marked on each such definition.
-/

namespace Ntex

/-- Head of an HTTP request: method, URI (path component), version, headers,
peer address — the immutable metadata held by the request handle. -/
structure RequestHead where
  method : String
  uri : String
  version : Nat
  headers : List (String × String)
  peer_addr : Option String
deriving Repr, DecidableEq

/-- The request payload slot, `Payload` in the source: either empty
(`Payload::None`) or a body stream (stream contents abstracted to a string). -/
inductive Payload where
  | none
  | stream (data : String)
deriving Repr, DecidableEq

/-- The data behind the `Rc` inside `HttpRequest`: the request head and the
take-once payload slot (the other fields of the inner struct play no role in
the claims). -/
structure HttpRequestInner where
  head : RequestHead
  payload : Payload
deriving Repr, DecidableEq

/-- An `HttpRequest` handle: `Rc<HttpRequestInner>` embedded with explicit
reference counts. `strong` and `weak` are the values `Rc::strong_count` and
`Rc::weak_count` would report for this handle. -/
structure HttpRequest where
  strong : Nat
  weak : Nat
  inner : HttpRequestInner
deriving Repr, DecidableEq

/-- Cloning an `HttpRequest` (its `Clone` impl is via `Rc`): the data is
shared and the strong count grows by one. -/
def HttpRequest.clone (r : HttpRequest) : HttpRequest :=
  { r with strong := r.strong + 1 }

/-- `WebRequest` (service.rs line 56): a newtype over `HttpRequest`. -/
structure WebRequest where
  req : HttpRequest
deriving Repr, DecidableEq

/-- `WebRequest::from_request` (service.rs lines 90-96): succeeds exactly when
the handle's strong count is 1 and weak count is 0; otherwise the handle is
returned unchanged in the error. -/
def WebRequest.from_request (req : HttpRequest) :
    Except HttpRequest WebRequest :=
  if req.strong = 1 ∧ req.weak = 0 then
    Except.ok ⟨req⟩
  else
    Except.error req

/-- `WebRequest::from_parts` (service.rs lines 73-83): the same exclusivity
check; on success the payload is re-attached through `Rc::get_mut` before
wrapping, on failure both inputs are returned unchanged. -/
def WebRequest.from_parts (req : HttpRequest) (pl : Payload) :
    Except (HttpRequest × Payload) WebRequest :=
  if req.strong = 1 ∧ req.weak = 0 then
    Except.ok ⟨{ req with inner := { req.inner with payload := pl } }⟩
  else
    Except.error (req, pl)

/-- `WebRequest::into_parts` (service.rs lines 65-68): takes the payload out
of the handle through `Rc::get_mut(..).unwrap()` and returns handle and
payload. The `unwrap` panic on a shared handle is embedded as `Option.none`. -/
def WebRequest.into_parts (w : WebRequest) :
    Option (HttpRequest × Payload) :=
  if w.req.strong = 1 ∧ w.req.weak = 0 then
    some ({ w.req with inner := { w.req.inner with payload := Payload.none } },
          w.req.inner.payload)
  else
    Option.none

/-- Claim C1 — `from_request` and `from_parts` succeed iff the handle has strong
count 1 and weak count 0; on failure both return the original inputs unchanged. -/
theorem webrequest_exclusivity (req : HttpRequest) (pl : Payload) :
    ((req.strong = 1 ∧ req.weak = 0) →
        WebRequest.from_request req = Except.ok ⟨req⟩ ∧
        WebRequest.from_parts req pl =
          Except.ok ⟨{ req with inner := { req.inner with payload := pl } }⟩) ∧
    (¬(req.strong = 1 ∧ req.weak = 0) →
        WebRequest.from_request req = Except.error req ∧
        WebRequest.from_parts req pl = Except.error (req, pl)) ∧
    ((WebRequest.from_request req).isOk ↔ (req.strong = 1 ∧ req.weak = 0)) ∧
    ((WebRequest.from_parts req pl).isOk ↔ (req.strong = 1 ∧ req.weak = 0)) := by
  unfold WebRequest.from_request WebRequest.from_parts
  by_cases h : req.strong = 1 ∧ req.weak = 0 <;>
    simp [h, Except.isOk, Except.toBool]

/-- A sample exclusive handle used by witnesses. -/
def sampleReq : HttpRequest :=
  { strong := 1, weak := 0,
    inner := { head := { method := "GET", uri := "/test", version := 11,
                         headers := [], peer_addr := Option.none },
               payload := Payload.none } }

/-- Witness for C1: with an exclusive handle both constructors succeed; after a
clone both fail, returning the inputs unchanged. -/
theorem webrequest_exclusivity_witness :
    (WebRequest.from_request sampleReq = Except.ok ⟨sampleReq⟩ ∧
     WebRequest.from_parts sampleReq (Payload.stream "b") =
       Except.ok ⟨{ sampleReq with
                    inner := { sampleReq.inner with
                               payload := Payload.stream "b" } }⟩) ∧
    (WebRequest.from_request sampleReq.clone =
       Except.error sampleReq.clone ∧
     WebRequest.from_parts sampleReq.clone (Payload.stream "b") =
       Except.error (sampleReq.clone, Payload.stream "b")) :=
  ⟨(webrequest_exclusivity sampleReq (Payload.stream "b")).1 (by decide),
   (webrequest_exclusivity sampleReq.clone (Payload.stream "b")).2.1 (by decide)⟩

/-- Claim C5 — every `WebRequest` produced by the public constructors satisfies
the exclusivity invariant, and under that invariant `into_parts` always
succeeds: it extracts the payload, and the returned handle keeps its head and
its 1/0 reference counts, so it is still usable (in particular `from_parts`
accepts it again). -/
theorem into_parts_total (w : WebRequest) :
    (∀ req, WebRequest.from_request req = Except.ok w →
        w.req.strong = 1 ∧ w.req.weak = 0) ∧
    (∀ req pl, WebRequest.from_parts req pl = Except.ok w →
        w.req.strong = 1 ∧ w.req.weak = 0) ∧
    (w.req.strong = 1 → w.req.weak = 0 →
        w.into_parts =
          some ({ w.req with
                  inner := { w.req.inner with payload := Payload.none } },
                w.req.inner.payload) ∧
        ∀ r pl, w.into_parts = some (r, pl) →
          r.strong = 1 ∧ r.weak = 0 ∧ r.inner.head = w.req.inner.head ∧
          pl = w.req.inner.payload ∧ (WebRequest.from_parts r pl).isOk) := by
  refine ⟨?_, ?_, ?_⟩
  · intro req h
    unfold WebRequest.from_request at h
    by_cases hc : req.strong = 1 ∧ req.weak = 0
    · simp [hc] at h
      subst h
      exact hc
    · simp [hc] at h
  · intro req pl h
    unfold WebRequest.from_parts at h
    by_cases hc : req.strong = 1 ∧ req.weak = 0
    · simp [hc] at h
      subst h
      simp [hc.1, hc.2]
    · simp [hc] at h
  · intro h1 h2
    unfold WebRequest.into_parts
    simp [h1, h2]
    simp [WebRequest.from_parts, h1, h2, Except.isOk, Except.toBool]

/-- Witness for C5: a concrete `WebRequest` built by `from_request`; its
`into_parts` succeeds and returns the payload and a still-exclusive handle. -/
theorem into_parts_total_witness :
    (WebRequest.mk sampleReq).req.strong = 1 ∧
    WebRequest.into_parts ⟨sampleReq⟩ =
      some ({ sampleReq with
              inner := { sampleReq.inner with payload := Payload.none } },
            sampleReq.inner.payload) :=
  ⟨by decide,
   ((into_parts_total ⟨sampleReq⟩).2.2 (by decide) (by decide)).1⟩

/-- The base HTTP body type (`Body` in `crate::http::body`), abstracted to its
observable content. -/
inductive Body where
  | empty
  | message (s : String)
deriving Repr, DecidableEq

/-- `ResponseBody<B>` from `crate::http::body`: either a typed body `B` or a
base `Body` substituted in (the `Other` variant). -/
inductive ResponseBody (B : Type) where
  | body (b : B)
  | other (b : Body)
deriving Repr, DecidableEq

/-- Head of an HTTP response: status, headers, reason, version. -/
structure ResponseHead where
  status : Nat
  headers : List (String × String)
  reason : Option String
  version : Nat
deriving Repr, DecidableEq

/-- `Response<B>` from `crate::http`: a response head paired with a body. -/
structure Response (B : Type) where
  head : ResponseHead
  body : ResponseBody B
deriving Repr, DecidableEq

def Response.status (r : Response B) : Nat := r.head.status

def Response.headers (r : Response B) : List (String × String) := r.head.headers

/-- A domain error (`crate::http::Error`), abstracted to the data the standard
error-to-response conversion consumes. -/
structure Error where
  status : Nat
  message : String
deriving Repr, DecidableEq

/-- Modelled from the spec: the standard error-to-response conversion of §7
(`Response: From<Error>`, outside this file) — total, yielding a response with
the error's status and the canonical error body. -/
def Error.toResponse (e : Error) : Response Body :=
  { head := { status := e.status, headers := [], reason := Option.none,
              version := 11 },
    body := ResponseBody.body (Body.message e.message) }

/-- Modelled from the spec: `Response::into_body` (outside this file) converts
a base-bodied response into a `B`-bodied one by re-wrapping the body in the
`Other` variant, keeping the head. -/
def Response.into_body (B : Type) (r : Response Body) : Response B :=
  { head := r.head,
    body := ResponseBody.other (match r.body with
      | ResponseBody.body b => b
      | ResponseBody.other b => b) }

/-- Modelled from the spec: `Response::map_body` (outside this file) applies
the transform over `(head, body)` to obtain the new body, keeping the same
head fields. -/
def Response.map_body (r : Response B)
    (f : ResponseHead → ResponseBody B → ResponseBody B2) : Response B2 :=
  { head := r.head, body := f r.head r.body }

/-- `WebResponse<B>` (service.rs lines 295-298): the originating request paired
with a response. -/
structure WebResponse (B : Type) where
  request : HttpRequest
  response : Response B
deriving Repr, DecidableEq

/-- `WebResponse::new` (service.rs lines 302-304). -/
def WebResponse.new (request : HttpRequest) (response : Response B) :
    WebResponse B :=
  { request := request, response := response }

/-- `WebResponse::from_err` (service.rs lines 307-314): converts the error into
a response and pairs it with the given request. -/
def WebResponse.from_err (B : Type) (err : Error) (request : HttpRequest) :
    WebResponse B :=
  { request := request, response := Response.into_body B err.toResponse }

/-- `WebResponse::error_response` (service.rs lines 317-320): delegates to
`from_err` with the currently paired request. -/
def WebResponse.error_response (w : WebResponse B) (err : Error) :
    WebResponse B :=
  WebResponse.from_err B err w.request

/-- `WebResponse::into_response` (service.rs lines 324-326): replaces the
response outright, request unchanged. -/
def WebResponse.into_response (w : WebResponse B) (response : Response B2) :
    WebResponse B2 :=
  WebResponse.new w.request response

def WebResponse.status (w : WebResponse B) : Nat := w.response.status

def WebResponse.headers (w : WebResponse B) : List (String × String) :=
  w.response.headers

/-- `WebResponse::checked_expr` (service.rs lines 365-377). The closure's
`&mut self` access is embedded as a state transformer returning the mutated
`WebResponse` and `Option.none` for `Ok(())` or `some err` for `Err(err)`. -/
def WebResponse.checked_expr (w : WebResponse B)
    (f : WebResponse B → WebResponse B × Option Error) : WebResponse B :=
  match f w with
  | (w2, Option.none) => w2
  | (w2, some err) =>
      WebResponse.new w2.request (Response.into_body B err.toResponse)

/-- `WebResponse::take_body` (service.rs lines 380-382): extracts the body,
leaving an emptied slot (modelled as the `Other empty` body). -/
def WebResponse.take_body (w : WebResponse B) :
    ResponseBody B × WebResponse B :=
  (w.response.body,
   { w with response := { w.response with
                          body := ResponseBody.other Body.empty } })

/-- `WebResponse::map_body` (service.rs lines 387-397): maps the response body,
keeping the same request. -/
def WebResponse.map_body (w : WebResponse B)
    (f : ResponseHead → ResponseBody B → ResponseBody B2) : WebResponse B2 :=
  { response := w.response.map_body f, request := w.request }

/-- `WebRequest::into_response` (service.rs lines 100-102): consumes the
request wrapper, pairing its handle with the given response. -/
def WebRequest.into_response (w : WebRequest) (res : Response B) :
    WebResponse B :=
  WebResponse.new w.req res

/-- `WebRequest::error_response` (service.rs lines 106-109): converts the error
to a response and pairs it with the wrapper's handle. -/
def WebRequest.error_response (B : Type) (w : WebRequest) (err : Error) :
    WebResponse B :=
  WebResponse.new w.req (Response.into_body B err.toResponse)

/-- Claim C6 — `map_body` preserves status, headers and the paired request,
substituting only the body, which becomes the transform's result. -/
theorem map_body_preserves_head_and_request (w : WebResponse B)
    (f : ResponseHead → ResponseBody B → ResponseBody B2) :
    (w.map_body f).status = w.status ∧
    (w.map_body f).headers = w.headers ∧
    (w.map_body f).request = w.request ∧
    (w.map_body f).response.body = f w.response.head w.response.body := by
  simp [WebResponse.map_body, Response.map_body, WebResponse.status,
        WebResponse.headers, Response.status, Response.headers]

/-- Claim C7 — `WebRequest::into_response` and `WebRequest::error_response`
both produce a `WebResponse` paired with the original underlying request;
`error_response` builds its response from the error via the standard
error-to-response conversion. -/
theorem webrequest_into_response_pairs_request (w : WebRequest)
    (res : Response B) (err : Error) :
    (w.into_response res).request = w.req ∧
    (w.into_response res).response = res ∧
    (WebRequest.error_response B w err).request = w.req ∧
    (WebRequest.error_response B w err).response =
      Response.into_body B err.toResponse := by
  simp [WebRequest.into_response, WebRequest.error_response, WebResponse.new]

/-- Claim C8 — `WebResponse::error_response` keeps the paired request, rebuilds
the response from the error via the standard conversion, and discards the
current response entirely: the result does not depend on it. -/
theorem webresponse_error_response_discards (w : WebResponse B) (err : Error) :
    (w.error_response err).request = w.request ∧
    (w.error_response err).response = Response.into_body B err.toResponse ∧
    (∀ w2 : WebResponse B, w2.request = w.request →
        w2.error_response err = w.error_response err) := by
  refine ⟨rfl, rfl, ?_⟩
  intro w2 h
  simp [WebResponse.error_response, WebResponse.from_err, h]

/-- Witness for C8: two responses with the same request but different bodies
collapse to the same error response. -/
theorem webresponse_error_response_discards_witness :
    WebResponse.error_response
        { request := sampleReq,
          response := { head := { status := 500, headers := [],
                                  reason := Option.none, version := 11 },
                        body := ResponseBody.body Body.empty } }
        { status := 400, message := "bad" } =
      WebResponse.error_response
        { request := sampleReq,
          response := { head := { status := 200, headers := [("a", "b")],
                                  reason := Option.none, version := 11 },
                        body := ResponseBody.body (Body.message "ok") } }
        { status := 400, message := "bad" } :=
  (webresponse_error_response_discards
      { request := sampleReq,
        response := { head := { status := 200, headers := [("a", "b")],
                                reason := Option.none, version := 11 },
                      body := ResponseBody.body (Body.message "ok") } }
      { status := 400, message := "bad" }).2.2
    { request := sampleReq,
      response := { head := { status := 500, headers := [],
                              reason := Option.none, version := 11 },
                    body := ResponseBody.body Body.empty } }
    rfl

/-- Claim C10 — `checked_expr` returns the mutated response when the closure
succeeds; when the closure fails the response is rebuilt from the error by the
standard conversion and the paired request is carried over unchanged. -/
theorem checked_expr_semantics (w : WebResponse B)
    (f : WebResponse B → WebResponse B × Option Error) :
    (∀ w2, f w = (w2, Option.none) → w.checked_expr f = w2) ∧
    (∀ w2 e, f w = (w2, some e) →
        (w.checked_expr f).response = Response.into_body B e.toResponse ∧
        (w.checked_expr f).request = w2.request ∧
        (w2.request = w.request → (w.checked_expr f).request = w.request)) := by
  constructor
  · intro w2 h
    simp [WebResponse.checked_expr, h]
  · intro w2 e h
    simp [WebResponse.checked_expr, h, WebResponse.new]

/-- Witness for C10: a closure that mutates the status and succeeds is kept
with its mutation; a failing closure's error replaces the response. -/
theorem checked_expr_semantics_witness :
    (WebResponse.checked_expr
        { request := sampleReq,
          response := { head := { status := 200, headers := [],
                                  reason := Option.none, version := 11 },
                        body := ResponseBody.body Body.empty } }
        (fun s => ({ s with response := { s.response with
                      head := { s.response.head with status := 201 } } },
                   Option.none)) =
      { request := sampleReq,
        response := { head := { status := 201, headers := [],
                                reason := Option.none, version := 11 },
                      body := ResponseBody.body Body.empty } }) ∧
    (WebResponse.checked_expr
        { request := sampleReq,
          response := { head := { status := 200, headers := [],
                                  reason := Option.none, version := 11 },
                        body := ResponseBody.body Body.empty } }
        (fun s => (s, some { status := 400, message := "bad" }))).response =
      Response.into_body Body
        (Error.toResponse { status := 400, message := "bad" }) :=
  ⟨(checked_expr_semantics
      { request := sampleReq,
        response := { head := { status := 200, headers := [],
                                reason := Option.none, version := 11 },
                      body := ResponseBody.body Body.empty } }
      (fun s => ({ s with response := { s.response with
                    head := { s.response.head with status := 201 } } },
                 Option.none))).1
     { request := sampleReq,
       response := { head := { status := 201, headers := [],
                               reason := Option.none, version := 11 },
                     body := ResponseBody.body Body.empty } }
     rfl,
   ((checked_expr_semantics
      { request := sampleReq,
        response := { head := { status := 200, headers := [],
                                reason := Option.none, version := 11 },
                      body := ResponseBody.body Body.empty } }
      (fun s => (s, some { status := 400, message := "bad" }))).2
     { request := sampleReq,
       response := { head := { status := 200, headers := [],
                               reason := Option.none, version := 11 },
                     body := ResponseBody.body Body.empty } }
     { status := 400, message := "bad" }
     rfl).1⟩

/-- A guard, by its evaluation contract (§6): a pure predicate over the
request head. -/
def Guard := RequestHead → Bool

/-- A compiled resource definition (`actix_router::ResourceDef`, external):
the pattern set it was built from plus the attached name. -/
structure ResourceDef where
  patterns : List String
  name : String

/-- `ResourceDef::new` (external collaborator): compiles the given patterns;
no name attached yet. -/
def ResourceDef.new (patterns : List String) : ResourceDef :=
  { patterns := patterns, name := "" }

/-- Modelled from the spec: `insert_slash` (from `super::dev`, not in this
file) — the trailing-slash-insertion normalization, so a pattern such as
`users` also matches `users/`. -/
def insert_slash (patterns : List String) : List String :=
  patterns.map fun p => if p.endsWith "/" then p else p ++ "/"

/-- One routable unit stored in the routing configuration: the compiled
resource definition, the optional guard list, and the service (of type `T`). -/
structure RegisteredService (T : Type) where
  rdef : ResourceDef
  guards : Option (List Guard)
  srv : T

/-- Modelled from the spec: the routing configuration (`AppService` from
`super::config`, not in this file) — whether the context is the application
root, and the accumulated routable units in registration order. -/
structure AppService (T : Type) where
  root : Bool
  services : List (RegisteredService T)

def AppService.is_root (c : AppService T) : Bool := c.root

/-- Modelled from the spec: `AppService::register_service` (not in this file)
appends one routable unit to the configuration. The final `Option` argument
mirrors the nested-resource-map parameter, passed as `None` at this call
site. -/
def AppService.register_service (c : AppService T) (rdef : ResourceDef)
    (guards : Option (List Guard)) (srv : T) (nested : Option Unit) :
    AppService T :=
  { c with services := c.services ++ [⟨rdef, guards, srv⟩] }

/-- `ServiceFactoryWrapper<T>` (service.rs lines 30-32): an optional slot
holding the concrete registrable. -/
structure ServiceFactoryWrapper (T : Type) where
  factory : Option T

/-- `ServiceFactoryWrapper::new` (service.rs lines 35-39). -/
def ServiceFactoryWrapper.new (factory : T) : ServiceFactoryWrapper T :=
  { factory := some factory }

/-- `AppServiceFactory::register` for `ServiceFactoryWrapper<T>` (service.rs
lines 46-50): take the slot's content; if present, perform the concrete
registration `regT` (the `HttpServiceFactory` impl of `T`); otherwise no-op. -/
def ServiceFactoryWrapper.register (regT : T → AppService S → AppService S)
    (w : ServiceFactoryWrapper T) (cfg : AppService S) :
    ServiceFactoryWrapper T × AppService S :=
  match w.factory with
  | some item => (⟨Option.none⟩, regT item cfg)
  | Option.none => (w, cfg)

/-- `register` invoked `n` times in sequence on the same wrapper and
configuration. -/
def ServiceFactoryWrapper.registerN (regT : T → AppService S → AppService S)
    (n : Nat) (w : ServiceFactoryWrapper T) (cfg : AppService S) :
    ServiceFactoryWrapper T × AppService S :=
  match n with
  | 0 => (w, cfg)
  | Nat.succ m =>
      let p := ServiceFactoryWrapper.register regT w cfg
      ServiceFactoryWrapper.registerN regT m p.1 p.2

theorem registerN_empty_slot (regT : T → AppService S → AppService S)
    (n : Nat) (cfg : AppService S) :
    ServiceFactoryWrapper.registerN regT n ⟨Option.none⟩ cfg =
      (⟨Option.none⟩, cfg) := by
  induction n generalizing cfg with
  | zero => rfl
  | succ m ih =>
      simp [ServiceFactoryWrapper.registerN, ServiceFactoryWrapper.register]
      exact ih cfg

/-- Claim C2 — for a freshly wrapped registrable, invoking the uniform
`register` `n ≥ 1` times performs the concrete registration exactly once: the
net effect is one application of the underlying registration, the first call
empties the slot and registers, and a call on an emptied slot is a no-op. -/
theorem single_shot_registration (regT : T → AppService S → AppService S)
    (t : T) (cfg : AppService S) :
    (∀ n, 1 ≤ n →
        ServiceFactoryWrapper.registerN regT n (ServiceFactoryWrapper.new t)
            cfg =
          (⟨Option.none⟩, regT t cfg)) ∧
    ServiceFactoryWrapper.register regT (ServiceFactoryWrapper.new t) cfg =
      (⟨Option.none⟩, regT t cfg) ∧
    (∀ cfg2 : AppService S,
        ServiceFactoryWrapper.register regT ⟨Option.none⟩ cfg2 =
          (⟨Option.none⟩, cfg2)) := by
  refine ⟨?_, rfl, fun cfg2 => rfl⟩
  intro n hn
  match n, hn with
  | Nat.succ m, _ =>
      simp [ServiceFactoryWrapper.registerN, ServiceFactoryWrapper.register,
            ServiceFactoryWrapper.new]
      exact registerN_empty_slot regT m (regT t cfg)

/-- A sample concrete registration: registering the identifier `t` appends a
one-pattern routable unit, so the count of units observes each side effect. -/
def regNat (t : Nat) (cfg : AppService Nat) : AppService Nat :=
  AppService.register_service cfg (ResourceDef.new ["/x"]) Option.none t
    Option.none

/-- Witness for C2: three invocations on a fresh wrapper over an empty root
configuration register exactly once. -/
theorem single_shot_registration_witness :
    1 ≤ 3 ∧
    ServiceFactoryWrapper.registerN regNat 3 (ServiceFactoryWrapper.new 7)
        { root := true, services := [] } =
      (⟨Option.none⟩, regNat 7 { root := true, services := [] }) :=
  ⟨by decide,
   (single_shot_registration regNat 7 { root := true, services := [] }).1 3
     (by decide)⟩

/-- `WebService` (service.rs lines 424-428): the route builder's state —
pattern set, optional name, accumulated guards. -/
structure WebService where
  rdef : List String
  name : Option String
  guards : List Guard

/-- `WebService::new` (service.rs lines 432-438): patterns only, no name, no
guards. -/
def WebService.new (path : List String) : WebService :=
  { rdef := path, name := Option.none, guards := [] }

/-- `WebService::name` (service.rs lines 443-446). -/
def WebService.set_name (s : WebService) (n : String) : WebService :=
  { s with name := some n }

/-- `WebService::guard` (service.rs lines 467-470): pushes the guard at the
end of the accumulated list. -/
def WebService.guard (s : WebService) (g : Guard) : WebService :=
  { s with guards := s.guards ++ [g] }

/-- `WebServiceImpl<T>` (service.rs lines 493-498): the finalized service. -/
structure WebServiceImpl (T : Type) where
  srv : T
  rdef : List String
  name : Option String
  guards : List Guard

/-- `WebService::finish` (service.rs lines 473-490): binds the handler factory
and carries the accumulated state over unchanged. -/
def WebService.finish (s : WebService) (srv : T) : WebServiceImpl T :=
  { srv := srv, rdef := s.rdef, name := s.name, guards := s.guards }

/-- `HttpServiceFactory::register` for `WebServiceImpl<T>` (service.rs lines
510-526): wrap the guards in `Some` unless empty; apply `insert_slash` to the
patterns iff the configuration is the root or the pattern set is non-empty;
attach the name if set; register the routable unit. -/
def WebServiceImpl.register (s : WebServiceImpl T) (config : AppService T) :
    AppService T :=
  let guards := if s.guards.isEmpty then Option.none else some s.guards
  let rdef :=
    if config.is_root || !s.rdef.isEmpty then
      ResourceDef.new (insert_slash s.rdef)
    else
      ResourceDef.new s.rdef
  let rdef2 := match s.name with
    | some n => { rdef with name := n }
    | Option.none => rdef
  AppService.register_service config rdef2 guards s.srv Option.none

theorem register_appends (s : WebServiceImpl T) (config : AppService T) :
    (s.register config).services =
      config.services ++
        [⟨{ patterns :=
              if config.root || !s.rdef.isEmpty then insert_slash s.rdef
              else s.rdef,
            name := match s.name with
              | some n => n
              | Option.none => "" },
          if s.guards.isEmpty then Option.none else some s.guards,
          s.srv⟩] := by
  unfold WebServiceImpl.register AppService.register_service ResourceDef.new
    AppService.is_root
  cases s.name <;> by_cases h : config.root || !s.rdef.isEmpty <;> simp [h]

theorem register_last (s : WebServiceImpl T) (config : AppService T) :
    (s.register config).services.getLast? =
      some ⟨{ patterns :=
                if config.root || !s.rdef.isEmpty then insert_slash s.rdef
                else s.rdef,
              name := match s.name with
                | some n => n
                | Option.none => "" },
            if s.guards.isEmpty then Option.none else some s.guards,
            s.srv⟩ := by
  rw [register_appends]
  exact List.getLast?_concat _

/-- Claim C3 — the routable unit that `register` adds to the configuration
carries `insert_slash`-normalized patterns exactly when the configuration is
the application root or the pattern set is non-empty; for a non-root context
with an empty pattern set the patterns are compiled unnormalized. -/
theorem trailing_slash_policy (s : WebServiceImpl T) (config : AppService T) :
    ((config.root = true ∨ s.rdef ≠ []) →
        ((s.register config).services.getLast?.map fun u => u.rdef.patterns) =
          some (insert_slash s.rdef)) ∧
    (config.root = false → s.rdef = [] →
        ((s.register config).services.getLast?.map fun u => u.rdef.patterns) =
          some s.rdef) := by
  constructor
  · intro h
    rw [register_last]
    have hb : (config.root || !s.rdef.isEmpty) = true := by
      rcases h with h | h
      · simp [h]
      · simp [h]
    simp [hb]
  · intro h1 h2
    rw [register_last]
    simp [h1, h2]

/-- Witness for C3: at the root, the pattern `users` is registered with its
trailing-slash variant; in a non-root context with no patterns, the empty
pattern set is registered as is. -/
theorem trailing_slash_policy_witness :
    (((WebServiceImpl.register
          { srv := 0, rdef := ["users"], name := Option.none, guards := [] }
          { root := true, services := [] }).services.getLast?.map
        fun u => u.rdef.patterns) =
      some (insert_slash ["users"])) ∧
    (((WebServiceImpl.register
          { srv := 0, rdef := [], name := Option.none, guards := [] }
          { root := false, services := [] }).services.getLast?.map
        fun u => u.rdef.patterns) =
      some []) :=
  ⟨(trailing_slash_policy
      { srv := 0, rdef := ["users"], name := Option.none, guards := [] }
      { root := true, services := [] }).1 (Or.inl rfl),
   (trailing_slash_policy
      { srv := 0, rdef := [], name := Option.none, guards := [] }
      { root := false, services := [] }).2 rfl rfl⟩

/-- Claim C9 — the guard list handed to the routing configuration is `None`
exactly when no guards were accumulated, and a non-empty accumulated list is
passed as `Some` with all its guards. -/
theorem register_guard_option (s : WebServiceImpl T) (config : AppService T) :
    (s.guards = [] →
        ((s.register config).services.getLast?.map fun u => u.guards) =
          some Option.none) ∧
    (s.guards ≠ [] →
        ((s.register config).services.getLast?.map fun u => u.guards) =
          some (some s.guards)) := by
  constructor
  · intro h
    rw [register_last]
    simp [h]
  · intro h
    rw [register_last]
    simp [List.isEmpty_iff, h]

/-- Witness for C9: no accumulated guards pass `None`; one accumulated guard
passes `Some` of the singleton guard list. -/
theorem register_guard_option_witness :
    (((WebServiceImpl.register
          { srv := 0, rdef := ["/a"], name := Option.none, guards := [] }
          { root := true, services := [] }).services.getLast?.map
        fun u => u.guards) =
      some Option.none) ∧
    (((WebServiceImpl.register
          { srv := 0, rdef := ["/a"], name := Option.none,
            guards := [fun h => h.method == "GET"] }
          { root := true, services := [] }).services.getLast?.map
        fun u => u.guards) =
      some (some [fun h => h.method == "GET"])) :=
  ⟨(register_guard_option
      { srv := 0, rdef := ["/a"], name := Option.none, guards := [] }
      { root := true, services := [] }).1 rfl,
   (register_guard_option
      { srv := 0, rdef := ["/a"], name := Option.none,
        guards := [fun h => h.method == "GET"] }
      { root := true, services := [] }).2 (by simp)⟩

/-- A registered route as the routing table sees it: a compiled matcher
(`match_and_extract`, returning extracted path parameters on success), the
guard list, and the service (of type `T`). -/
structure Route (T : Type) where
  matcher : String → Option (List (String × String))
  guards : List Guard
  srv : T

/-- Modelled from the spec: one route's acceptance test at dispatch time —
the path match is attempted first, and only on success is the guard list
evaluated as a short-circuiting conjunction. -/
def routeAccepts (r : Route T) (head : RequestHead) (path : String) : Bool :=
  (r.matcher path).isSome && r.guards.all fun g => g head

/-- Modelled from the spec: the routing table's dispatch (§4.5, an external
collaborator) — routes are evaluated in registration order and the first one
whose path match and guards all succeed wins. -/
def dispatch (routes : List (Route T)) (head : RequestHead) (path : String) :
    Option (Route T) :=
  routes.find? fun r => routeAccepts r head path

/-- Claim C4 — dispatch is first-match-wins in registration order: an
accepting head route is selected no matter what follows, a rejecting head
route defers to the rest, a route whose path match fails is rejected whatever
its guards are (guards run only after a path match), and the builder keeps
guards in the order of the `guard` calls through `finish`. -/
theorem dispatch_first_match_wins :
    (∀ (r : Route T) rs head path, routeAccepts r head path = true →
        dispatch (r :: rs) head path = some r) ∧
    (∀ (r : Route T) rs head path, routeAccepts r head path = false →
        dispatch (r :: rs) head path = dispatch rs head path) ∧
    (∀ (r : Route T) head path, r.matcher path = Option.none →
        ∀ gs, routeAccepts { r with guards := gs } head path = false) ∧
    (∀ pats, (WebService.new pats).guards = []) ∧
    (∀ (s : WebService) g, (s.guard g).guards = s.guards ++ [g]) ∧
    (∀ (s : WebService) (srv : T), (s.finish srv).guards = s.guards) := by
  refine ⟨?_, ?_, ?_, fun pats => rfl, fun s g => rfl, fun s srv => rfl⟩
  · intro r rs head path h
    simp [dispatch, List.find?, h]
  · intro r rs head path h
    simp [dispatch, List.find?, h]
  · intro r head path h gs
    simp [routeAccepts, h]

/-- Two concrete routes over `String` services: both match the path `/a`, the
first unguarded, the second guarded on the method. -/
def routeA : Route String :=
  { matcher := fun p => if p == "/a" then some [] else Option.none,
    guards := [], srv := "first" }

def routeB : Route String :=
  { matcher := fun p => if p == "/a" then some [] else Option.none,
    guards := [fun h => h.method == "GET"], srv := "second" }

/-- Witness for C4: with both routes matching `/a`, the earlier-registered
route wins; when the earlier route's guard fails, dispatch falls through to
the rest; a route whose matcher rejects the path is rejected under any guard
list. -/
theorem dispatch_first_match_wins_witness :
    dispatch [routeA, routeB] sampleReq.inner.head "/a" = some routeA ∧
    dispatch [{ routeB with srv := "guarded" }, routeA]
        { sampleReq.inner.head with method := "PUT" } "/a" =
      dispatch [routeA] { sampleReq.inner.head with method := "PUT" } "/a" ∧
    routeAccepts { routeA with guards := [fun _ => false] }
        sampleReq.inner.head "/b" = false :=
  ⟨(dispatch_first_match_wins).1 routeA [routeB] sampleReq.inner.head "/a"
     (by decide),
   (dispatch_first_match_wins).2.1 { routeB with srv := "guarded" } [routeA]
     { sampleReq.inner.head with method := "PUT" } "/a" (by decide),
   (dispatch_first_match_wins).2.2.1 routeA sampleReq.inner.head "/b"
     (by decide) [fun _ => false]⟩

end Ntex
